import Mathlib

/-!
Verification of the ShakeNBreak CLI (`shakenbreak/cli.py`) against its
natural-language specification.  The definitions below are shallow embeddings
of the corresponding Python functions; each definition's doc comment points at
the source lines it models.
-/

/-- Python exceptions raised by the CLI code paths modelled here.
`structureParseError f` stands for whatever exception the external
`Structure.from_file` raises for the file named `f` (a missing file, an
unparsable file, ...); only its propagation matters to the claims. -/
inductive PyErr
  | valueError (msg : String)
  | fileNotFoundError (msg : String)
  | structureParseError (file : List Char)
deriving DecidableEq, Repr

/-- Python truthiness of the `defect_object.user_charges` attribute:
`None` and the empty list are falsy, a non-empty list is truthy. -/
def pyTruthy : Option (List Int) → Bool
  | none => false
  | some l => !l.isEmpty

/-- The inclusive integer range produced by `list(range(lo, hi + 1))`
(cli.py lines 274-277). -/
def intRangeIncl (lo hi : Int) : List Int :=
  (List.range (hi + 1 - lo).toNat).map (fun k : Nat => lo + (k : Int))

/-- The `ValueError` message raised at cli.py line 272. -/
def minMaxChargeError : String := "If using min/max defect charge, both options must be set!"

/-- The warning issued at cli.py lines 283-286 when charges are specified both
via the CLI and via the `charges` key of the config file. -/
def chargesCliWarning : String :=
  "Defect charges were specified using the CLI option, but `charges` was also specified in the `--config` file -- this will be ignored!"

/-- The config-file `charges` block of `generate` (cli.py lines 280-288):
given the `user_charges` state `uc` left by the CLI options and the optional
`charges` entry of the (already filtered) config file, return the final
`user_charges` together with the warnings emitted. -/
def afterConfig (uc : Option (List Int)) (configCharges : Option (List Int)) :
    Except PyErr (Option (List Int) × List String) :=
  match configCharges with
  | none => Except.ok (uc, [])
  | some l => if pyTruthy uc then Except.ok (uc, [chargesCliWarning]) else Except.ok (some l, [])

/-- Charge resolution of the `generate` command (cli.py lines 264-288).
`charge`, `mincharge`, `maxcharge` are the CLI options `--charge`,
`--min-charge`, `--max-charge`; `configCharges` is the `charges` entry of the
config file if present.  Returns the defect object's `user_charges` and the
warnings emitted, or the raised exception. -/
def resolveCharges (charge mincharge maxcharge : Option Int)
    (configCharges : Option (List Int)) :
    Except PyErr (Option (List Int) × List String) :=
  match charge, mincharge, maxcharge with
  | some c, _, _ => afterConfig (some [c]) configCharges
  | none, none, none => afterConfig none configCharges
  | none, some mn, some mx =>
      afterConfig (some (intRangeIncl (min mn mx) (max mn mx))) configCharges
  | none, _, _ => Except.error (PyErr.valueError minMaxChargeError)

/-- The external `Defect.get_charge_states` call (cli.py line 293, provided by
the doped/pymatgen dependency): with a truthy `user_charges` it returns them
verbatim, otherwise it falls back to the padding-based oxidation-state range,
abstracted here as `fallback`. -/
def getChargeStates (uc : Option (List Int)) (fallback : List Int) : List Int :=
  if pyTruthy uc then uc.getD [] else fallback

/-- End-to-end charge handling of `generate` (cli.py lines 264-294 followed by
structure generation): an `Except.ok (cs, ws)` result means the command
proceeds to produce trial structures for each charge in `cs`, having emitted
warnings `ws`; an `Except.error` result means the command aborted before any
structure was generated. -/
def generateChargedDefects (charge mincharge maxcharge : Option Int)
    (configCharges : Option (List Int)) (fallback : List Int) :
    Except PyErr (List Int × List String) :=
  match resolveCharges charge mincharge maxcharge configCharges with
  | Except.error e => Except.error e
  | Except.ok (uc, ws) => Except.ok (getChargeStates uc fallback, ws)

/-- Insert an integer into a sorted duplicate-free list, keeping it sorted and
duplicate-free. -/
def insertSortedDedup (x : Int) : List Int → List Int
  | [] => [x]
  | y :: ys => if x < y then x :: y :: ys else if x = y then y :: ys else y :: insertSortedDedup x ys

/-- Deduplicate and sort a list of integers in ascending order, as the spec's
charge-state enumerator contract ("return them verbatim (deduplicated,
sorted)") demands. -/
def dedupSortAsc (l : List Int) : List Int := l.foldr insertSortedDedup []

/-- Local variable names of `generate` at cli.py line 200 (`locals()` at that
point): the thirteen CLI parameters plus the variables bound at lines
194-198. -/
def funcArgsGenerate : List String :=
  ["defect", "bulk", "charge", "min_charge", "max_charge", "padding", "defect_index",
   "defect_coords", "code", "name", "config", "input_file", "verbose",
   "user_settings", "user_potcar_functional", "user_potcar_settings", "pseudopotentials"]

/-- The `valid_args` list of `generate` (cli.py lines 202-232). -/
def validArgsGenerate : List String :=
  ["defect", "bulk", "charge", "min_charge", "max_charge", "padding", "charges",
   "defect_index", "defect_coords", "code", "name", "config", "input_file", "verbose",
   "oxidation_states", "dict_number_electrons_user", "distortion_increment",
   "bond_distortions", "local_rattle", "distorted_elements", "stdev", "d_min",
   "n_iter", "active_atoms", "nbr_cutoff", "width", "max_attempts", "max_disp", "seed"]

/-- Local variable names of `generate_all` at cli.py line 492 (`locals()` at
that point).  `_bulk_oxi_states` is also bound when the bulk oxidation-state
guess succeeds; like the entries below it is never a valid config key, so its
presence does not affect which unrecognized keys survive. -/
def funcArgsGenerateAll : List String :=
  ["defects", "bulk", "padding", "structure_file", "code", "config", "input_file",
   "verbose", "bulk_struct", "bulk_struct_w_oxi", "defects_dirs", "user_settings",
   "defect_settings", "user_potcar_functional", "user_potcar_settings", "pseudopotentials"]

/-- The `valid_args` list of `generate_all` (cli.py lines 494-521). -/
def validArgsGenerateAll : List String :=
  ["defects", "bulk", "structure_file", "code", "config", "input_file", "verbose",
   "oxidation_states", "charges", "charge", "padding", "dict_number_electrons_user",
   "distortion_increment", "bond_distortions", "local_rattle", "distorted_elements",
   "stdev", "d_min", "n_iter", "active_atoms", "nbr_cutoff", "width", "max_attempts",
   "max_disp", "seed"]

/-- Config-key filtering shared by `generate` (cli.py lines 200-240) and
`generate_all` (cli.py lines 492-529), after the `POTCAR_FUNCTIONAL`, `POTCAR`
and `pseudopotentials` keys have been popped: when the settings mapping is
non-empty, keys shadowing local variables are popped, then every key not in
`valid_args` is popped.  The second component is the list of warnings emitted
by this filtering: the code pops silently, so it is always empty, and no
exception is ever raised (the function is total). -/
def filterUserSettings {α : Type} (funcArgs validArgs : List String)
    (settings : List (String × α)) : List (String × α) × List String :=
  if settings.isEmpty then (settings, [])
  else
    (((settings.filter (fun kv => !funcArgs.contains kv.1)).filter
        (fun kv => validArgs.contains kv.1)), [])

/-- A filesystem entry inside a defect directory: its name and whether it is a
directory.  `_parse_defect_dirs` never consults the `isDir` flag of these
inner entries (it applies `fnmatch.filter` to the raw `os.listdir` listing),
which the spec's wording ("subdirectory") does consult. -/
structure FsEntry where
  name : List Char
  isDir : Bool
deriving DecidableEq, Repr

/-- A top-level filesystem item of the scanned path: its name, whether
`os.path.isdir` holds for it, and its own listing (empty for files). -/
structure FsDir where
  name : List Char
  isDir : Bool
  children : List FsEntry
deriving DecidableEq, Repr

/-- Whether the first string starts with the second (the semantics of the
fnmatch pattern `stem*` on POSIX, where `os.path.normcase` is the
identity). -/
def strStartsWith : List Char → List Char → Bool
  | _, [] => true
  | [], _ :: _ => false
  | c :: cs, p :: ps => c == p && strStartsWith cs ps

/-- The four distortion-folder stems of `_parse_defect_dirs`
(cli.py line 34). -/
def distortionStems : List (List Char) :=
  ["Rattled".toList, "Unperturbed".toList, "Bond_Distortion".toList, "Dimer".toList]

/-- The inner condition of `_parse_defect_dirs` (cli.py lines 32-35):
`any(fnmatch.filter(os.listdir(dir), dist + "*") for dist in [...])`, i.e.
some raw listing entry — file or subdirectory — starts with one of the
stems. -/
def hasDistortionEntry (children : List FsEntry) : Bool :=
  distortionStems.any (fun stem => children.any (fun e => strStartsWith e.name stem))

/-- The `_parse_defect_dirs` scan (cli.py lines 26-36): the names of the
listing items that are directories and whose own listing contains an entry
starting with a distortion stem. -/
def parseDefectDirsM (listing : List FsDir) : List (List Char) :=
  (listing.filter (fun d => d.isDir && hasDistortionEntry d.children)).map (fun d => d.name)

/-- The condition as the spec words it: some child that is itself a
subdirectory starts with a distortion stem.  Stated for comparison with
`hasDistortionEntry`, which is what the code computes. -/
def hasDistortionSubdir (children : List FsEntry) : Bool :=
  distortionStems.any (fun stem => children.any (fun e => e.isDir && strStartsWith e.name stem))

/-- Python `s.rsplit(sep, 1)` restricted to what the CLI consumes: `some
(before, after)` when `sep` occurs in `s` and `after` is the part following
the last occurrence, `none` when `sep` does not occur (in which case the
Python code's `[1]` access would raise `IndexError`). -/
def rsplitLast (sep : Char) : List Char → Option (List Char × List Char)
  | [] => none
  | c :: rest =>
    match rsplitLast sep rest with
    | some (b, a) => some (c :: b, a)
    | none => if c == sep then some ([], rest) else none

/-- Value of an ASCII decimal digit. -/
def digitVal (c : Char) : Option Nat :=
  if '0' ≤ c ∧ c ≤ '9' then some (c.toNat - '0'.toNat) else none

/-- Accumulating decimal parse; fails on the first non-digit. -/
def parseDigitsAux : Nat → List Char → Option Nat
  | acc, [] => some acc
  | acc, c :: cs =>
    match digitVal c with
    | some d => parseDigitsAux (acc * 10 + d) cs
    | none => none

/-- Parse a non-empty run of decimal digits. -/
def parseDigits : List Char → Option Nat
  | [] => none
  | l => parseDigitsAux 0 l

/-- Python `int(s)` on the strings the CLI feeds it (no surrounding
whitespace, no digit-group underscores): an optional sign followed by a
non-empty digit run; `none` models the raised `ValueError`. -/
def parseIntPy : List Char → Option Int
  | '-' :: rest => (parseDigits rest).map (fun n => -(n : Int))
  | '+' :: rest => (parseDigits rest).map (fun n => (n : Int))
  | l => (parseDigits l).map (fun n => (n : Int))

/-- Recovery of defect name and charge from a defect directory name in `plot`
(cli.py lines 1155-1158): `defect.rsplit("_", 1)[0]` and
`int(defect.rsplit("_", 1)[1])`; `none` models a raised exception. -/
def recoverNameCharge (dirname : List Char) : Option (List Char × Int) :=
  match rsplitLast '_' dirname with
  | none => none
  | some (b, a) => (parseIntPy a).map (fun c => (b, c))

/-- An item of the `defects` directory as classified by the `generate_all`
scan loop (cli.py lines 584-619): a plain file (with a flag for whether
`Structure.from_file` succeeds on it), a subdirectory with its file listing,
or something that is neither. -/
inductive DirEntry
  | file (name : List Char) (parseOk : Bool)
  | subdir (name : List Char) (files : List (List Char))
  | other (name : List Char)
deriving DecidableEq, Repr

/-- Outcome of one iteration of the `generate_all` scan loop for one item:
the item is processed (with the structure file chosen inside a subdirectory,
if any), or it is skipped via `continue` (possibly after a warning), or an
exception escapes the iteration — the unguarded `Structure.from_file` at
cli.py line 615 — which aborts the whole loop. -/
inductive ScanResult
  | processed (name : List Char) (chosen : Option (List Char))
  | skipped (warning : Option String)
  | raised (err : PyErr)
deriving DecidableEq, Repr

/-- ASCII lower-casing of one character (Python `str.lower` on the ASCII
names involved). -/
def toLowerCh (c : Char) : Char :=
  if 'A' ≤ c ∧ c ≤ 'Z' then Char.ofNat (c.toNat + 32) else c

/-- ASCII lower-casing of a string. -/
def lowerStr (s : List Char) : List Char := s.map toLowerCh

/-- Python substring test `needle in hay`. -/
def containsSub (needle : List Char) : List Char → Bool
  | [] => strStartsWith [] needle
  | c :: t => strStartsWith (c :: t) needle || containsSub needle t

/-- The warning of cli.py lines 608-612. -/
def multipleFilesWarning : String :=
  "Multiple structure files found, cannot uniquely determine determine which is the defect, skipping."

/-- The warning of cli.py line 618. -/
def notParsableWarning : String := "Could not parse as a defect, skipping."

/-- One iteration of the `generate_all` scan loop (cli.py lines 584-619).
`ps dir f` abstracts whether the unguarded
`Structure.from_file(os.path.join(defects, dir, f))` at cli.py line 615
succeeds — it fails when `f` does not exist under `dir` (in particular when
the lower-cased candidate name differs from the on-disk name on a
case-sensitive filesystem) or when its contents are not a structure, and
failure there raises out of the loop.  A plain top-level file that fails to
parse is skipped silently (its `from_file` is guarded by `try`/`except`,
cli.py lines 586-591); a subdirectory with a single listing entry uses that
entry; otherwise the candidate files are those whose lower-cased name
contains the lower-cased `structure_file` option, or that contain `cif`
(raw) but not `bulk` (lower-cased), and the chosen name is the lower-cased
candidate; zero or several candidates are skipped with a warning.  `os.listdir`
names are non-empty, so the `if defect_file:` guard at cli.py line 614 is
always taken for the chosen entry. -/
def scanEntry (structureFile : List Char) (ps : List Char → List Char → Bool) :
    DirEntry → ScanResult
  | DirEntry.file n ok => if ok then ScanResult.processed n none else ScanResult.skipped none
  | DirEntry.subdir n files =>
    match files with
    | [f] =>
      if ps n f then ScanResult.processed n (some f)
      else ScanResult.raised (PyErr.structureParseError f)
    | _ =>
      let poss := (files.filter (fun f =>
          containsSub (lowerStr structureFile) (lowerStr f) ||
            (containsSub "cif".toList f && !containsSub "bulk".toList (lowerStr f)))).map lowerStr
      match poss with
      | [f] =>
        if ps n f then ScanResult.processed n (some f)
        else ScanResult.raised (PyErr.structureParseError f)
      | _ => ScanResult.skipped (some multipleFilesWarning)
  | DirEntry.other _ => ScanResult.skipped (some notParsableWarning)

/-- The whole `generate_all` scan loop: skipped items contribute nothing and
iteration continues; a raised exception propagates (there is no handler
around the loop body's subdirectory branch), so the remaining items are
never visited; on success, the processed items are returned in order, each
with the structure file chosen for it. -/
def scanAll (structureFile : List Char) (ps : List Char → List Char → Bool) :
    List DirEntry → Except PyErr (List (List Char × Option (List Char)))
  | [] => Except.ok []
  | entry :: rest =>
    match scanEntry structureFile ps entry with
    | ScanResult.raised err => Except.error err
    | ScanResult.processed n c =>
      match scanAll structureFile ps rest with
      | Except.error err => Except.error err
      | Except.ok l => Except.ok ((n, c) :: l)
    | ScanResult.skipped _ => scanAll structureFile ps rest

/-- A concrete parse outcome for the witness: `Structure.from_file` fails on
every chosen subdirectory file. -/
def neverParses : List Char → List Char → Bool := fun _ _ => false

/-- The `analyse` all-defects loop (cli.py lines 971-975): `for defect in
defect_dirs: analyse_single_defect(...)` with no exception handler, so an
exception raised while processing one defect propagates and the remaining
defects are not processed.  `f` is the per-defect body (it calls
`io.parse_energies`, `analysis.get_energies` etc., which live outside these
sources and may raise); on success the list of processed defects is
returned. -/
def analyseLoop (f : List Char → Except PyErr Unit) :
    List (List Char) → Except PyErr (List (List Char))
  | [] => Except.ok []
  | d :: ds =>
    match f d with
    | Except.error e => Except.error e
    | Except.ok _ =>
      match analyseLoop f ds with
      | Except.error e => Except.error e
      | Except.ok rest => Except.ok (d :: rest)

/-- A concrete per-defect analysis body that fails on the defect folder named
"a" (e.g. its energies cannot be parsed) and succeeds on every other
folder. -/
def failingAnalyse : List Char → Except PyErr Unit :=
  fun d => if d = "a".toList then Except.error (PyErr.valueError "no energies parsed") else Except.ok ()

/-- Where a click parameter's value came from (a fragment of
`click.core.ParameterSource`). -/
inductive ParamSource
  | default
  | commandline
  | environment
deriving DecidableEq, Repr

/-- Python dict lookup `cfg[key]` / `key in cfg` on an association list with
distinct keys. -/
def lookupCfg {α : Type} : List (String × α) → String → Option α
  | [], _ => none
  | (k, v) :: rest, key => if k == key then some v else lookupCfg rest key

/-- One iteration of the `CommandWithConfigFile.invoke` loop (cli.py lines
55-60) for the parameter `kv`: the config value replaces the parameter value
exactly when the parameter source is DEFAULT and the config file has a key of
the same name. -/
def configMergeParam {α : Type} (sources : String → ParamSource)
    (cfgData : List (String × α)) (kv : String × α) : String × α :=
  if sources kv.1 = ParamSource.default then
    match lookupCfg cfgData kv.1 with
    | some v => (kv.1, v)
    | none => kv
  else kv

/-- `CommandWithConfigFile.invoke` (cli.py lines 51-61): when no config file
is given the parameters are untouched; otherwise the loop over
`ctx.params.items()` updates each parameter independently (each iteration
writes only the key it is visiting, and parameter sources are unaffected by
value writes), so it is the pointwise map of `configMergeParam`. -/
def configMerge {α : Type} (sources : String → ParamSource)
    (cfgFile : Option (List (String × α))) (params : List (String × α)) :
    List (String × α) :=
  match cfgFile with
  | none => params
  | some cfgData => params.map (configMergeParam sources cfgData)

/-- A concrete parameter-source assignment for the witness: only the
parameter named "charge" was left at its default. -/
def exampleSources : String → ParamSource :=
  fun n => if n = "charge" then ParamSource.default else ParamSource.commandline

/-- Python `max(iterable)` on a non-empty list, `max(a :: l)` =
`l.foldl max a`. -/
def pyMax (a : ℚ) (l : List ℚ) : ℚ := l.foldl max a

/-- Python `sum(iterable)`. -/
def pySum (l : List ℚ) : ℚ := l.foldl (· + ·) 0

/-- The `mag` command (cli.py lines 1476-1501).  `readResult` is `none` when
any exception is raised inside the `try` block while reading the OUTCAR and
extracting the per-atom magnetisations, and `some mags` on success.
`max([])` raises `ValueError`, which the `except` clause turns into exit
status 1; otherwise the exit status is 0 exactly when the maximal per-atom
absolute magnetisation is strictly below the threshold and their sum is
strictly below ten times the threshold. -/
def magExitCode (readResult : Option (List ℚ)) (threshold : ℚ) : Nat :=
  match readResult with
  | none => 1
  | some mags =>
    match mags.map (fun m => |m|) with
    | [] => 1
    | a :: rest =>
      if pyMax a rest < threshold ∧ pySum (a :: rest) < threshold * 10 then 0 else 1

/-- Modelled from the spec: `read_defects_directories` lives in
`shakenbreak/energy_lowering_distortions.py`, which is not among these source
files.  Per the spec's output layout ("one directory per DefectEntry named
`..._{charge}`") and the `regenerate` docstring ("Defect folder names should
end with charge state after an underscore"), it scans the path for
directories whose names end with an underscore followed by an integer charge
state, returning each defect name with its charge. -/
def read_defects_directories (listing : List FsDir) : List (List Char × Int) :=
  listing.filterMap (fun d => if d.isDir then recoverNameCharge d.name else none)

/-- The one observable consolidation step of `regenerate` after the scan:
`get_energy_lowering_distortions(..., write_input_files=True)`. -/
inductive RegenStep
  | consolidateAndWrite
deriving DecidableEq, Repr

/-- The `FileNotFoundError` message of cli.py lines 1306-1310. -/
def noDefectFoldersMsg : String :=
  "No defect folders found in directory. Please check the directory contains defect folders with names ending in a charge state after an underscore."

/-- The `regenerate` command (cli.py lines 1293-1320): scan the path; if no
defect folders are found raise `FileNotFoundError` — with an empty list of
executed steps, i.e. before any energy-lowering consolidation or input-file
writing — and otherwise run the consolidation. -/
def regenerateCmd (listing : List FsDir) : List RegenStep × Option PyErr :=
  if read_defects_directories listing = [] then
    ([], some (PyErr.fileNotFoundError noDefectFoldersMsg))
  else ([RegenStep.consolidateAndWrite], none)

/-! Helper lemmas -/

theorem mem_intRangeIncl (lo hi : Int) (h : lo ≤ hi) (x : Int) :
    x ∈ intRangeIncl lo hi ↔ lo ≤ x ∧ x ≤ hi := by
  unfold intRangeIncl
  constructor
  · intro hx
    rcases List.mem_map.mp hx with ⟨k, hk, hlk⟩
    rw [List.mem_range] at hk
    omega
  · rintro ⟨h1, h2⟩
    refine List.mem_map.mpr ⟨(x - lo).toNat, ?_, ?_⟩
    · rw [List.mem_range]
      omega
    · omega

theorem intRangeIncl_isEmpty_false (lo hi : Int) (h : lo ≤ hi) :
    (intRangeIncl lo hi).isEmpty = false := by
  unfold intRangeIncl
  cases hr : List.range (hi + 1 - lo).toNat with
  | nil =>
    exfalso
    have hlen : (hi + 1 - lo).toNat = 0 := by simpa using congrArg List.length hr
    omega
  | cons a t => rfl

theorem filterUserSettings_spec {α : Type} (fa va : List String)
    (settings : List (String × α)) (kv : String × α) :
    (filterUserSettings fa va settings).2 = [] ∧
      (kv ∈ (filterUserSettings fa va settings).1 →
        va.contains kv.1 = true ∧ kv ∈ settings) := by
  unfold filterUserSettings
  cases settings with
  | nil => simp
  | cons a t =>
    refine ⟨rfl, ?_⟩
    intro hm
    simp only [List.isEmpty_cons, Bool.false_eq_true, if_false] at hm
    rcases List.mem_filter.mp hm with ⟨hm1, hva⟩
    rcases List.mem_filter.mp hm1 with ⟨hmem, _⟩
    exact ⟨hva, hmem⟩

/-! Claims -/

/-- C1 counterexample: with `--charge 0` on the command line and a config file
whose `charges` key is `[1, 2]`, `generate` does not abort: it returns
successfully — trial structures are generated for charge 0 — having emitted
the "this will be ignored" warning.  This refutes the claim that the
operation is aborted before any structure is generated. -/
theorem c1_counterexample :
    generateChargedDefects (some 0) none none (some [1, 2]) [] =
      Except.ok ([0], [chargesCliWarning]) := rfl

/-- C1 (amended): whenever a charge is given on the command line and the
config file also contains a `charges` key, the inconsistency is surfaced
immediately as a warning, the config `charges` value is ignored, and
generation proceeds with the CLI charge. -/
theorem c1_conflicting_charges_warn_and_proceed (c : Int) (mn mx : Option Int)
    (l : List Int) (fb : List Int) :
    generateChargedDefects (some c) mn mx (some l) fb =
      Except.ok ([c], [chargesCliWarning]) := rfl

/-- C1 witness: the amended theorem evaluated at `--charge 5` with config
charges `[7]`. -/
theorem c1_witness :
    generateChargedDefects (some 5) none none (some [7]) [] =
      Except.ok ([5], [chargesCliWarning]) :=
  c1_conflicting_charges_warn_and_proceed 5 none none [7] []

/-- C3 counterexample: with `--charge 0` and only `--min-charge 1` supplied
(no `--max-charge`), the lone bound is silently ignored and charge states are
produced for charge 0 — no invalid-charge-range error is raised.  This
refutes the claim for invocations that also carry a single CLI charge. -/
theorem c3_counterexample :
    generateChargedDefects (some 0) (some 1) none none [] = Except.ok ([0], []) := rfl

/-- C3 (amended): when no single CLI charge is given and exactly one of the
minimum and maximum charge bounds is supplied, `generate` fails with the
`ValueError` "If using min/max defect charge, both options must be set!"
before any charge states are produced. -/
theorem c3_single_bound_errors_without_cli_charge (mn mx : Option Int)
    (cc : Option (List Int)) (fb : List Int) (h : mn.isSome ≠ mx.isSome) :
    generateChargedDefects none mn mx cc fb =
      Except.error (PyErr.valueError minMaxChargeError) := by
  cases mn with
  | none =>
    cases mx with
    | none => exact absurd rfl h
    | some x => rfl
  | some x =>
    cases mx with
    | none => rfl
    | some y => exact absurd rfl h

/-- C3 witness: the amended theorem evaluated at `--min-charge 0` with no
`--max-charge` and no `--charge`. -/
theorem c3_witness :
    generateChargedDefects none (some 0) none none [] =
      Except.error (PyErr.valueError minMaxChargeError) :=
  c3_single_bound_errors_without_cli_charge (some 0) none none [] (by decide)

/-- C4: when both bounds are supplied (and no single CLI charge), the
enumerated charge list is the inclusive integer range from the smaller to the
larger bound, swapping the two bounds yields the same result, and membership
in that list is exactly the inclusive-range condition. -/
theorem c4_min_max_inclusive_range (m M : Int) (cc : Option (List Int)) (fb : List Int) :
    (∃ w, generateChargedDefects none (some m) (some M) cc fb =
        Except.ok (intRangeIncl (min m M) (max m M), w)) ∧
    generateChargedDefects none (some M) (some m) cc fb =
      generateChargedDefects none (some m) (some M) cc fb ∧
    ∀ x : Int, x ∈ intRangeIncl (min m M) (max m M) ↔ min m M ≤ x ∧ x ≤ max m M := by
  have hne := intRangeIncl_isEmpty_false (min m M) (max m M) min_le_max
  refine ⟨?_, ?_, ?_⟩
  · cases cc with
    | none =>
      exact ⟨[], by
        simp [generateChargedDefects, resolveCharges, afterConfig, getChargeStates,
          pyTruthy, hne]⟩
    | some l =>
      exact ⟨[chargesCliWarning], by
        simp [generateChargedDefects, resolveCharges, afterConfig, getChargeStates,
          pyTruthy, hne]⟩
  · simp only [generateChargedDefects, resolveCharges]
    rw [min_comm M m, max_comm M m]
  · exact mem_intRangeIncl _ _ min_le_max

/-- C4 witness: the theorem evaluated at bounds 1 and -2 ("+1 to -3"-style
mixed sign order): swapping the bounds yields the same result, and 0 lies in
the enumerated range. -/
theorem c4_witness :
    generateChargedDefects none (some (-2)) (some 1) none [] =
        generateChargedDefects none (some 1) (some (-2)) none [] ∧
      ((0 : Int) ∈ intRangeIncl (min (1 : Int) (-2)) (max (1 : Int) (-2)) ↔
        min (1 : Int) (-2) ≤ 0 ∧ (0 : Int) ≤ max (1 : Int) (-2)) := by
  have h := c4_min_max_inclusive_range 1 (-2) none []
  exact ⟨h.2.1, h.2.2 0⟩

/-- C5 counterexample: a config `charges` list `[3, 1, 3]` is used verbatim
(not deduplicated, not sorted): the resulting charge list is `[3, 1, 3]`,
which differs from the deduplicated ascending list `[1, 3]`.  This refutes
the claim that the charge set used for generation is the given values
deduplicated and sorted. -/
theorem c5_counterexample :
    generateChargedDefects none none none (some [3, 1, 3]) [] =
        Except.ok ([3, 1, 3], []) ∧
      dedupSortAsc [3, 1, 3] = [1, 3] ∧ ([3, 1, 3] : List Int) ≠ [1, 3] :=
  ⟨rfl, by decide, by decide⟩

/-- C5 (amended): a single CLI charge yields the singleton charge list; a
non-empty config `charges` list is used for generation verbatim — in its
given order, duplicates retained, not sorted; an empty config `charges` list
falls back to the padding-based charges. -/
theorem c5_explicit_charges_used_verbatim (c : Int) (fb l : List Int) :
    generateChargedDefects (some c) none none none fb = Except.ok ([c], []) ∧
    (l ≠ [] → generateChargedDefects none none none (some l) fb = Except.ok (l, [])) ∧
    generateChargedDefects none none none (some []) fb = Except.ok (fb, []) := by
  refine ⟨rfl, ?_, rfl⟩
  intro hl
  cases l with
  | nil => exact absurd rfl hl
  | cons a as => rfl

/-- C5 witness: the amended theorem evaluated at config charges `[3, 1, 3]`
with fallback `[9]`. -/
theorem c5_witness :
    generateChargedDefects none none none (some [3, 1, 3]) [9] =
      Except.ok ([3, 1, 3], []) :=
  (c5_explicit_charges_used_verbatim 0 [9] [3, 1, 3]).2.1 (by decide)

/-- C2 counterexample: a config mapping with the single unrecognized key
"nonsense" is filtered with an empty warning list — no warning is emitted for
the unrecognized key.  This refutes the claim that a warning is emitted for
each unrecognized key. -/
theorem c2_counterexample :
    filterUserSettings funcArgsGenerate validArgsGenerate [("nonsense", (0 : Nat))] =
        ([], []) ∧
      validArgsGenerate.contains "nonsense" = false := by
  constructor
  · decide
  · decide

/-- C2 (amended): for both `generate` and `generate_all`, every key of the
configuration mapping that is not among the recognized option names is
silently removed — no warning is emitted — and unrecognized keys never cause
an error (the filtering is total and every surviving key is recognized and
came from the original mapping). -/
theorem c2_unrecognized_keys_silently_removed {α : Type}
    (settings : List (String × α)) (kv : String × α) :
    ((filterUserSettings funcArgsGenerate validArgsGenerate settings).2 = [] ∧
      (kv ∈ (filterUserSettings funcArgsGenerate validArgsGenerate settings).1 →
        validArgsGenerate.contains kv.1 = true ∧ kv ∈ settings)) ∧
    ((filterUserSettings funcArgsGenerateAll validArgsGenerateAll settings).2 = [] ∧
      (kv ∈ (filterUserSettings funcArgsGenerateAll validArgsGenerateAll settings).1 →
        validArgsGenerateAll.contains kv.1 = true ∧ kv ∈ settings)) :=
  ⟨filterUserSettings_spec _ _ settings kv, filterUserSettings_spec _ _ settings kv⟩

/-- C2 witness: the amended theorem evaluated on the mapping
`{stdev: 1, nonsense: 2}`: no warnings are produced and the surviving key
`stdev` is recognized. -/
theorem c2_witness :
    (filterUserSettings funcArgsGenerate validArgsGenerate
        [("stdev", (1 : Nat)), ("nonsense", 2)]).2 = [] ∧
      validArgsGenerate.contains "stdev" = true := by
  have h := c2_unrecognized_keys_silently_removed
    [("stdev", (1 : Nat)), ("nonsense", 2)] ("stdev", 1)
  exact ⟨h.1.1, (h.1.2 (by decide)).1⟩

theorem rsplitLast_eq_none (sep : Char) (l : List Char) (h : sep ∉ l) :
    rsplitLast sep l = none := by
  induction l with
  | nil => rfl
  | cons c t ih =>
    have hc : (c == sep) = false := by
      refine beq_eq_false_iff_ne.mpr ?_
      intro e
      exact h (e ▸ List.mem_cons_self c t)
    have ht : sep ∉ t := fun m => h (List.mem_cons_of_mem _ m)
    simp [rsplitLast, ih ht, hc]

theorem rsplitLast_append (sep : Char) (base post : List Char) (h : sep ∉ post) :
    rsplitLast sep (base ++ sep :: post) = some (base, post) := by
  induction base with
  | nil => simp [rsplitLast, rsplitLast_eq_none sep post h]
  | cons c b ih => simp [rsplitLast, ih]

/-- C6 counterexample: a directory `v_Cd_0` whose only listing entry is a
plain file (not a subdirectory) named `Rattled` is still recognized by
`_parse_defect_dirs`, although it contains no subdirectory starting with a
distortion stem.  This refutes the "if and only if ... at least one
subdirectory" wording. -/
theorem c6_counterexample :
    parseDefectDirsM [⟨"v_Cd_0".toList, true, [⟨"Rattled".toList, false⟩]⟩] =
        ["v_Cd_0".toList] ∧
      hasDistortionSubdir [⟨"Rattled".toList, false⟩] = false := by
  constructor
  · decide
  · decide

/-- C6 (amended): the scan recognizes a directory exactly when it contains at
least one listing entry — file or subdirectory — whose name begins with one
of `Rattled`, `Unperturbed`, `Bond_Distortion`, `Dimer`; and for a directory
named `{defect_name}_{charge}` with `charge` an integer, the defect name and
charge are recovered by splitting at the last underscore. -/
theorem c6_defect_dir_scan (listing : List FsDir) (nm : List Char) :
    (nm ∈ parseDefectDirsM listing ↔
      ∃ d, d ∈ listing ∧ d.name = nm ∧ d.isDir = true ∧
        ∃ stem, stem ∈ distortionStems ∧
          ∃ e, e ∈ d.children ∧ strStartsWith e.name stem = true) ∧
    ∀ (base ds : List Char) (c : Int), '_' ∉ ds → parseIntPy ds = some c →
      recoverNameCharge (base ++ '_' :: ds) = some (base, c) := by
  constructor
  · simp only [parseDefectDirsM, List.mem_map, List.mem_filter,
      Bool.and_eq_true, hasDistortionEntry, List.any_eq_true]
    constructor
    · rintro ⟨d, ⟨hd, hdir, stem, hstem, e, he, hsw⟩, rfl⟩
      exact ⟨d, hd, rfl, hdir, stem, hstem, e, he, hsw⟩
    · rintro ⟨d, hd, rfl, hdir, stem, hstem, e, he, hsw⟩
      exact ⟨d, ⟨hd, hdir, stem, hstem, e, he, hsw⟩, rfl⟩
  · intro base ds c hmem hparse
    simp [recoverNameCharge, rsplitLast_append '_' base ds hmem, hparse]

/-- C6 witness: the amended theorem's recovery clause evaluated on the
directory name `v_Cd` + `_` + `-2`: it recovers defect name `v_Cd` and
charge -2. -/
theorem c6_witness :
    recoverNameCharge ("v_Cd".toList ++ '_' :: "-2".toList) =
      some ("v_Cd".toList, (-2 : Int)) :=
  (c6_defect_dir_scan [] []).2 "v_Cd".toList "-2".toList (-2) (by decide) (by decide)

/-- C7 counterexample: in the `analyse` all-defects loop, a per-defect
failure (here: the energies of defect folder `a` cannot be parsed) aborts the
whole loop — the sibling folder `b`, whose own analysis would succeed, is
never processed.  This refutes the claim that a failing entry is skipped and
iteration continues for both batch commands. -/
theorem c7_counterexample :
    analyseLoop failingAnalyse ["a".toList, "b".toList] =
        Except.error (PyErr.valueError "no energies parsed") ∧
      failingAnalyse "b".toList = Except.ok () := ⟨rfl, rfl⟩

theorem scanAll_skipped (sf : List Char) (ps : List Char → List Char → Bool)
    (bad : DirEntry) (w : Option String)
    (h : scanEntry sf ps bad = ScanResult.skipped w) :
    ∀ pre post, scanAll sf ps (pre ++ bad :: post) = scanAll sf ps (pre ++ post) := by
  intro pre
  induction pre with
  | nil =>
    intro post
    simp only [List.nil_append]
    show scanAll sf ps (bad :: post) = scanAll sf ps post
    simp [scanAll, h]
  | cons a t ih =>
    intro post
    simp only [List.cons_append]
    cases hA : scanEntry sf ps a with
    | raised err => simp [scanAll, hA]
    | processed n c => simp [scanAll, hA, ih post]
    | skipped w' => simp [scanAll, hA, ih post]

/-- C7 (amended): in `generate_all`, an item skipped via `continue`
(ambiguous structure file, unparsable top-level file, an item that is
neither file nor directory) leaves the processing of all other items
unchanged — the scan of the surrounding items equals the scan without the
skipped item; but an exception from the unguarded `Structure.from_file` on a
subdirectory's chosen structure file (cli.py line 615) propagates and the
remaining items are not processed, and likewise in `analyse` over all defect
folders a failure while processing one defect aborts the remaining
defects. -/
theorem c7_batch_loop_behaviour (sf : List Char) (ps : List Char → List Char → Bool)
    (pre post rest : List DirEntry) (bad bad2 : DirEntry) (w : Option String)
    (err : PyErr) (f : List Char → Except PyErr Unit) (d : List Char)
    (ds : List (List Char)) (e : PyErr) :
    (scanEntry sf ps bad = ScanResult.skipped w →
      scanAll sf ps (pre ++ bad :: post) = scanAll sf ps (pre ++ post)) ∧
    (scanEntry sf ps bad2 = ScanResult.raised err →
      scanAll sf ps (bad2 :: rest) = Except.error err) ∧
    (f d = Except.error e → analyseLoop f (d :: ds) = Except.error e) := by
  refine ⟨?_, ?_, ?_⟩
  · intro h
    exact scanAll_skipped sf ps bad w h pre post
  · intro h
    simp [scanAll, h]
  · intro h
    simp [analyseLoop, h]

/-- C7 witness: the amended theorem applied to concrete scans — a skipped
unrecognized item leaves the sibling's processing unchanged, while a defect
subdirectory whose sole (unparsable) file `garbage` hits the unguarded
`Structure.from_file` aborts before the sibling is visited — and to the
concrete failing analysis body. -/
theorem c7_witness :
    scanAll "POSCAR".toList neverParses
        [DirEntry.other "junk".toList, DirEntry.file "x".toList true] =
      scanAll "POSCAR".toList neverParses [DirEntry.file "x".toList true] ∧
    scanAll "POSCAR".toList neverParses
        [DirEntry.subdir "v_Cd_0".toList ["garbage".toList], DirEntry.file "x".toList true] =
      Except.error (PyErr.structureParseError "garbage".toList) ∧
    analyseLoop failingAnalyse ["a".toList, "b".toList] =
      Except.error (PyErr.valueError "no energies parsed") := by
  have h := c7_batch_loop_behaviour "POSCAR".toList neverParses []
    [DirEntry.file "x".toList true] [DirEntry.file "x".toList true]
    (DirEntry.other "junk".toList)
    (DirEntry.subdir "v_Cd_0".toList ["garbage".toList])
    (some notParsableWarning) (PyErr.structureParseError "garbage".toList)
    failingAnalyse "a".toList ["b".toList] (PyErr.valueError "no energies parsed")
  exact ⟨h.1 rfl, h.2.1 rfl, h.2.2 rfl⟩

/-- C8: for every parameter of a command built with `CommandWithConfigFile`,
the config-file value is applied exactly when the parameter source is DEFAULT
and the config file contains a key of the same name: the merged parameter
list is the pointwise conditional update, a parameter whose source is not
DEFAULT (e.g. given explicitly on the command line) is never overridden, a
DEFAULT parameter absent from the config file is unchanged, and with no
config file nothing changes. -/
theorem c8_config_merge {α : Type} (sources : String → ParamSource)
    (cfgData : List (String × α)) (params : List (String × α)) (i : Nat)
    (h : i < params.length) (h2 : i < (configMerge sources (some cfgData) params).length) :
    ((configMerge sources (some cfgData) params).get ⟨i, h2⟩ =
      configMergeParam sources cfgData (params.get ⟨i, h⟩)) ∧
    (sources (params.get ⟨i, h⟩).1 = ParamSource.default →
      ∀ v, lookupCfg cfgData (params.get ⟨i, h⟩).1 = some v →
        (configMerge sources (some cfgData) params).get ⟨i, h2⟩ =
          ((params.get ⟨i, h⟩).1, v)) ∧
    (sources (params.get ⟨i, h⟩).1 ≠ ParamSource.default →
      (configMerge sources (some cfgData) params).get ⟨i, h2⟩ = params.get ⟨i, h⟩) ∧
    (sources (params.get ⟨i, h⟩).1 = ParamSource.default →
      lookupCfg cfgData (params.get ⟨i, h⟩).1 = none →
      (configMerge sources (some cfgData) params).get ⟨i, h2⟩ = params.get ⟨i, h⟩) ∧
    configMerge sources none params = params := by
  have hm : (configMerge sources (some cfgData) params).get ⟨i, h2⟩ =
      configMergeParam sources cfgData (params.get ⟨i, h⟩) := by
    show (params.map (configMergeParam sources cfgData)).get ⟨i, h2⟩ = _
    simp only [List.get_eq_getElem, List.getElem_map]
  refine ⟨hm, ?_, ?_, ?_, rfl⟩
  · intro hd v hv
    rw [hm]
    simp only [List.get_eq_getElem] at hd hv
    simp [configMergeParam, hd, hv]
  · intro hnd
    rw [hm]
    simp only [List.get_eq_getElem] at hnd
    simp [configMergeParam, hnd]
  · intro hd hn
    rw [hm]
    simp only [List.get_eq_getElem] at hd hn
    simp [configMergeParam, hd, hn]

/-- C8 witness: the theorem evaluated on the parameter list
`{charge: 1, bulk: 2}` where only `charge` was left at its default and the
config file sets `charge: 7`: the merged `charge` parameter takes the config
value. -/
theorem c8_witness :
    (configMerge exampleSources (some [("charge", (7 : Nat))])
        [("charge", 1), ("bulk", 2)]).get ⟨0, by decide⟩ = ("charge", 7) := by
  have h := c8_config_merge exampleSources [("charge", (7 : Nat))]
    [("charge", 1), ("bulk", 2)] 0 (by decide) (by decide)
  exact h.2.1 (by decide) 7 (by decide)

theorem foldl_max_lt_iff (t : ℚ) (l : List ℚ) (a : ℚ) :
    l.foldl max a < t ↔ a < t ∧ ∀ x ∈ l, x < t := by
  induction l generalizing a with
  | nil => simp
  | cons x xs ih =>
    rw [List.foldl_cons, ih (max a x)]
    constructor
    · rintro ⟨hax, hall⟩
      rcases max_lt_iff.mp hax with ⟨ha, hx⟩
      refine ⟨ha, ?_⟩
      intro y hy
      rcases List.mem_cons.mp hy with rfl | hy'
      · exact hx
      · exact hall y hy'
    · rintro ⟨ha, hall⟩
      refine ⟨max_lt_iff.mpr ⟨ha, hall x (List.mem_cons_self x xs)⟩, ?_⟩
      intro y hy
      exact hall y (List.mem_cons_of_mem _ hy)

/-- C9: provided the magnetisation list is non-empty when the OUTCAR is read
successfully, the `mag` command exits with status 0 exactly when reading
succeeded and every per-atom absolute magnetisation is strictly below the
threshold (equivalently, their maximum is) and their sum is strictly below
ten times the threshold; in every other case — including any exception while
reading the file — it exits with status 1 (the exit status is always 0 or
1). -/
theorem c9_mag_exit_status (r : Option (List ℚ)) (t : ℚ) (h : r ≠ some []) :
    (magExitCode r t = 0 ↔
      ∃ mags, r = some mags ∧ (∀ m ∈ mags, |m| < t) ∧
        pySum (mags.map (fun m => |m|)) < t * 10) ∧
    (magExitCode r t = 0 ∨ magExitCode r t = 1) := by
  cases r with
  | none =>
    constructor
    · constructor
      · intro h0
        exact absurd h0 Nat.one_ne_zero
      · rintro ⟨mags, hmg, -, -⟩
        exact Option.noConfusion hmg
    · exact Or.inr rfl
  | some mags =>
    cases mags with
    | nil => exact absurd rfl h
    | cons m ms =>
      have key : magExitCode (some (m :: ms)) t =
          if pyMax |m| (ms.map (fun x => |x|)) < t ∧
              pySum (|m| :: ms.map (fun x => |x|)) < t * 10 then 0 else 1 := rfl
      constructor
      · rw [key]
        constructor
        · intro h0
          by_cases hc : pyMax |m| (ms.map (fun x => |x|)) < t ∧
              pySum (|m| :: ms.map (fun x => |x|)) < t * 10
          · refine ⟨m :: ms, rfl, ?_, ?_⟩
            · have hall := (foldl_max_lt_iff t (ms.map (fun x => |x|)) |m|).mp hc.1
              intro y hy
              rcases List.mem_cons.mp hy with rfl | hy'
              · exact hall.1
              · exact hall.2 _ (List.mem_map_of_mem _ hy')
            · exact hc.2
          · rw [if_neg hc] at h0
            exact absurd h0 Nat.one_ne_zero
        · rintro ⟨mags', hmg, hall, hsum⟩
          injection hmg with hh
          subst hh
          have hcond : pyMax |m| (ms.map (fun x => |x|)) < t ∧
              pySum (|m| :: ms.map (fun x => |x|)) < t * 10 := by
            constructor
            · refine (foldl_max_lt_iff t (ms.map (fun x => |x|)) |m|).mpr ⟨?_, ?_⟩
              · exact hall m (List.mem_cons_self _ _)
              · intro y hy
                rcases List.mem_map.mp hy with ⟨x, hx, rfl⟩
                exact hall x (List.mem_cons_of_mem _ hx)
            · exact hsum
          rw [if_pos hcond]
      · rw [key]
        by_cases hc : pyMax |m| (ms.map (fun x => |x|)) < t ∧
            pySum (|m| :: ms.map (fun x => |x|)) < t * 10
        · rw [if_pos hc]
          exact Or.inl rfl
        · rw [if_neg hc]
          exact Or.inr rfl

/-- C9 witness: the theorem evaluated on a successfully read OUTCAR with a
single unmagnetised atom and threshold 1: exit status 0. -/
theorem c9_witness : magExitCode (some [(0 : ℚ)]) 1 = 0 := by
  have h := c9_mag_exit_status (some [(0 : ℚ)]) 1 (by simp)
  refine h.1.mpr ⟨[0], rfl, ?_, ?_⟩
  · intro m hm
    have hm0 : m = 0 := by simpa using hm
    rw [hm0]
    norm_num
  · have hps : pySum ([(0 : ℚ)].map (fun m => |m|)) = 0 := by
      simp [pySum, List.foldl]
    rw [hps]
    norm_num

/-- C10: whenever the scan of the target path finds no defect folders (no
directories whose names end with an underscore followed by an integer charge
state), `regenerate` fails with `FileNotFoundError` having executed no
step — in particular before any energy-lowering consolidation or input-file
writing is attempted. -/
theorem c10_regenerate_no_defect_folders (listing : List FsDir)
    (h : read_defects_directories listing = []) :
    regenerateCmd listing = ([], some (PyErr.fileNotFoundError noDefectFoldersMsg)) := by
  simp [regenerateCmd, h]

/-- C10 witness: the theorem evaluated on a path containing a single
directory `Groundstate`, whose name does not end in an underscore followed by
a charge state. -/
theorem c10_witness :
    regenerateCmd [⟨"Groundstate".toList, true, []⟩] =
      ([], some (PyErr.fileNotFoundError noDefectFoldersMsg)) :=
  c10_regenerate_no_defect_folders _ (by decide)
